import Mathlib

/-
Verification of the reddit-search-app job runner and HTTP surface
(shallow embedding of src/app.py).

The external reddit client (praw) and the spreadsheet parser (pandas)
are opaque collaborators; they are modelled by function-valued
environment records.  Everything else is translated directly from
src/app.py.
-/

/-- One post as yielded by the external search client
(`reddit.subreddit("all").search(...)` in src/app.py). -/
structure Post where
  title : String
  subreddit : String
  score : Int
  num_comments : Nat
  url : String
  created_utc : Nat
deriving Repr, DecidableEq

/-- One accumulated result row (the dict appended at src/app.py lines 72-80). -/
structure ResultRecord where
  keyword : String
  title : String
  subreddit : String
  score : Int
  comments : Nat
  url : String
  created : String
deriving Repr, DecidableEq

/-- The process-wide `search_progress` dict (src/app.py lines 36-44). -/
structure SearchProgress where
  current : Nat
  total : Nat
  message : String
  is_running : Bool
  results : Option (List ResultRecord)
  error : Option String
  search_id : Option String
deriving Repr, DecidableEq

/-- The configured external client.  `client k` is the ordered stream of
posts for keyword `k` (sort="top" over subreddit "all"), or the exception
the client raises; `fmtTime` models
`datetime.fromtimestamp(..).strftime(..)`, which depends on the host
timezone. -/
structure RedditEnv where
  client : String → Except String (List Post)
  fmtTime : Nat → String

/-- Initial value of `search_progress` at process start (src/app.py lines 36-44). -/
def initialProgress : SearchProgress :=
  { current := 0, total := 0, message := "", is_running := false,
    results := none, error := none, search_id := none }

/-- The record built from one submission for one keyword (src/app.py lines 72-80). -/
def mkRecord (env : RedditEnv) (keyword : String) (s : Post) : ResultRecord :=
  { keyword := keyword, title := s.title, subreddit := s.subreddit,
    score := s.score, comments := s.num_comments, url := s.url,
    created := env.fmtTime s.created_utc }

/-- The records one keyword contributes: the client is asked with
`limit=5`, so at most the first five posts of its stream are iterated;
if the client raises, the inner `except` swallows the exception and the
keyword contributes nothing (src/app.py lines 69-83). -/
def keywordRecords (env : RedditEnv) (keyword : String) : List ResultRecord :=
  match env.client keyword with
  | .ok posts => (posts.take 5).map (mkRecord env keyword)
  | .error _ => []

/-- The `for i, keyword in enumerate(keywords, start=1)` loop
(src/app.py lines 65-83).  Returns the state after the loop, the
accumulated local `results` list, and the list of progress snapshots
(one per keyword, taken after that keyword's `current`/`message`
update). -/
def searchLoop (env : RedditEnv) :
    List String → Nat → SearchProgress → List ResultRecord →
    SearchProgress × List ResultRecord × List SearchProgress
  | [], _, st, acc => (st, acc, [])
  | k :: ks, i, st, acc =>
    let st1 : SearchProgress := { st with current := i, message := "Searching for: " ++ k }
    let acc1 := acc ++ keywordRecords env k
    let r := searchLoop env ks (i + 1) st1 acc1
    (r.1, r.2.1, st1 :: r.2.2)

/-- The configuration-error message (src/app.py line 53). -/
def configError : String :=
  "Reddit API not configured properly. Please check your environment variables."

/-- The initialization block of `search_reddit` (src/app.py lines 57-62):
the six assignments performed before the loop; `message` is not among
them. -/
def initState (keywords : List String) (search_id : String)
    (st : SearchProgress) : SearchProgress :=
  { st with
      total := keywords.length, current := 0, is_running := true,
      error := none, search_id := some search_id, results := none }

/-- `search_reddit(keywords, search_id)` (src/app.py lines 46-92),
run against `reddit : Option RedditEnv` (`reddit = none` models the
module-level `reddit = None`) from prior global state `st`.
Returns the final `search_progress`, the function's return value, and
the trace of `search_progress` snapshots over the run (initial
snapshot, one per keyword, final snapshot).  The outer `try/except`
(lines 89-92) has no failure source in this embedding: every
interaction with the client sits inside the inner per-keyword `try`,
and the remaining statements are assignments that cannot raise. -/
def searchRedditFull (reddit : Option RedditEnv) (keywords : List String)
    (search_id : String) (st : SearchProgress) :
    SearchProgress × Option (List ResultRecord) × List SearchProgress :=
  match reddit with
  | none =>
    let st1 : SearchProgress := { st with error := some configError, is_running := false }
    (st1, none, [st1])
  | some env =>
    let st0 : SearchProgress := initState keywords search_id st
    let r := searchLoop env keywords 1 st0 []
    let stf : SearchProgress := { r.1 with results := some r.2.1, is_running := false }
    (stf, some r.2.1, st0 :: (r.2.2 ++ [stf]))

/-- `search_reddit`: final global state and return value. -/
def searchReddit (reddit : Option RedditEnv) (keywords : List String)
    (search_id : String) (st : SearchProgress) :
    SearchProgress × Option (List ResultRecord) :=
  ((searchRedditFull reddit keywords search_id st).1,
   (searchRedditFull reddit keywords search_id st).2.1)

/-- The sequence of `search_progress` snapshots a run publishes. -/
def searchRedditTrace (reddit : Option RedditEnv) (keywords : List String)
    (search_id : String) (st : SearchProgress) : List SearchProgress :=
  (searchRedditFull reddit keywords search_id st).2.2

/- ------------------------------------------------------------------
Upload route (src/app.py lines 98-146).
------------------------------------------------------------------ -/

/-- A parsed spreadsheet (`pd.read_excel` result): named columns of
cells, a cell being `none` for NaN/blank. -/
structure DataFrame where
  cols : List (String × List (Option String))
deriving Repr, DecidableEq

/-- `df.columns`. -/
def DataFrame.columns (df : DataFrame) : List String :=
  df.cols.map Prod.fst

/-- `df[name]` (empty when the column is missing; `upload_file` only
reads it after checking membership). -/
def DataFrame.getCol (df : DataFrame) (name : String) : List (Option String) :=
  ((df.cols.find? (fun p => p.1 == name)).map Prod.snd).getD []

/-- The uploaded file as the route sees it: its filename, its byte
size, and the outcome of handing it to `pd.read_excel` (`.error e`
models the parse raising with message `e`). -/
structure UploadedFile where
  filename : String
  size : Nat
  content : Except String DataFrame

/-- `df["Keyword"].dropna().tolist()` (src/app.py line 126). -/
def extractKeywords (df : DataFrame) : List String :=
  (df.getCol "Keyword").filterMap id

/-- Python `s.endswith(suffix)`: suffix test on the character sequence. -/
def endswith (s suffix : String) : Bool :=
  suffix.data.isSuffixOf s.data

/-- Response body of `/upload`. -/
inductive UploadResponse where
  | failure (error : String)
  | success (search_id : String)
deriving Repr, DecidableEq

/-- `upload_file()` (src/app.py lines 98-146).  `files` is
`request.files['file']` when present; `now` is the
`datetime.now().strftime(..)` timestamp minted for the job id.
Returns the JSON response and, when a job is launched, the
`(keywords, search_id)` arguments handed to the background
`search_reddit` thread (`none` means no job started).  The route body
never writes `search_progress`, so the global state is not a parameter. -/
def upload_file (files : Option UploadedFile) (now : String) :
    UploadResponse × Option (List String × String) :=
  match files with
  | none => (.failure "No file selected", none)
  | some file =>
    if file.filename = "" then
      (.failure "No file selected", none)
    else if ¬ (endswith file.filename ".xlsx" ∨ endswith file.filename ".xls") then
      (.failure "Please upload an Excel file (.xlsx or .xls)", none)
    else if file.size > 5 * 1024 * 1024 then
      (.failure "File size too large. Maximum 5MB allowed.", none)
    else
      match file.content with
      | .error e => (.failure ("Error reading file: " ++ e), none)
      | .ok df =>
        if "Keyword" ∉ df.columns then
          (.failure "Excel file must have a \x27Keyword\x27 column", none)
        else
          let keywords := extractKeywords df
          if keywords = [] then
            (.failure "No keywords found in the Excel file", none)
          else if keywords.length > 20 then
            (.failure "Too many keywords. Maximum 20 keywords allowed for Vercel deployment.", none)
          else
            (.success now, some (keywords, now))

/-- `/reset` (src/app.py lines 197-209): rebuilds `search_progress`
from the literal dict and redirects to `/`. -/
def reset (_st : SearchProgress) : SearchProgress × String :=
  ({ current := 0, total := 0, message := "", is_running := false,
     results := none, error := none, search_id := none }, "/")

/- ------------------------------------------------------------------
Concrete instances used to exercise the definitions.
------------------------------------------------------------------ -/

/-- A concrete post. -/
def postFoo1 : Post :=
  { title := "t1", subreddit := "r1", score := 10, num_comments := 2,
    url := "u1", created_utc := 1000 }

/-- A concrete post. -/
def postFoo2 : Post :=
  { title := "t2", subreddit := "r2", score := 7, num_comments := 0,
    url := "u2", created_utc := 2000 }

/-- A concrete post. -/
def postFoo3 : Post :=
  { title := "t3", subreddit := "r1", score := 3, num_comments := 5,
    url := "u3", created_utc := 3000 }

/-- A concrete client environment: three posts for "foo", an exception
for "boom", an empty stream for everything else. -/
def envA : RedditEnv :=
  { client := fun k =>
      if k = "foo" then .ok [postFoo1, postFoo2, postFoo3]
      else if k = "boom" then .error "boom"
      else .ok [],
    fmtTime := fun n => toString n }

/-- A concrete prior global state left over from a completed job. -/
def priorState : SearchProgress :=
  { current := 2, total := 2, message := "Searching for: foo",
    is_running := false,
    results := some [mkRecord envA "foo" postFoo1],
    error := none, search_id := some "20240101_000000" }

/- ------------------------------------------------------------------
Invariants of the keyword loop.
------------------------------------------------------------------ -/

/-- The loop returns the input accumulator extended, in order, by the
records of each keyword. -/
theorem searchLoop_acc (env : RedditEnv) (ks : List String) (i : Nat)
    (st : SearchProgress) (acc : List ResultRecord) :
    (searchLoop env ks i st acc).2.1 = acc ++ ks.flatMap (keywordRecords env) := by
  induction ks generalizing i st acc with
  | nil => simp [searchLoop]
  | cons k ks ih => simp [searchLoop, ih, List.append_assoc]

/-- The loop only writes `current` and `message`: the other fields of
the final state and of every published snapshot equal the input
state's. -/
theorem searchLoop_frame (env : RedditEnv) (ks : List String) (i : Nat)
    (st : SearchProgress) (acc : List ResultRecord) :
    ((searchLoop env ks i st acc).1.total = st.total ∧
     (searchLoop env ks i st acc).1.error = st.error ∧
     (searchLoop env ks i st acc).1.search_id = st.search_id ∧
     (searchLoop env ks i st acc).1.results = st.results ∧
     (searchLoop env ks i st acc).1.is_running = st.is_running) ∧
    ∀ s ∈ (searchLoop env ks i st acc).2.2,
      s.total = st.total ∧ s.error = st.error ∧ s.search_id = st.search_id ∧
      s.results = st.results ∧ s.is_running = st.is_running := by
  induction ks generalizing i st acc with
  | nil => simp [searchLoop]
  | cons k ks ih =>
    have h := ih (i + 1) { st with current := i, message := "Searching for: " ++ k }
      (acc ++ keywordRecords env k)
    constructor
    · exact h.1
    · intro s hs
      simp only [searchLoop, List.mem_cons] at hs
      rcases hs with rfl | hs
      · exact ⟨rfl, rfl, rfl, rfl, rfl⟩
      · exact h.2 s hs

/-- The `current` fields of the snapshots published by the loop are
`i, i+1, ..., i + length - 1`. -/
theorem searchLoop_trace_current (env : RedditEnv) (ks : List String) (i : Nat)
    (st : SearchProgress) (acc : List ResultRecord) :
    (searchLoop env ks i st acc).2.2.map SearchProgress.current =
      List.range' i ks.length := by
  induction ks generalizing i st acc with
  | nil => simp [searchLoop]
  | cons k ks ih => simp [searchLoop, ih, List.range'_succ]

/-- After the loop, `current` holds the last 1-based index (or is
untouched when the batch is empty). -/
theorem searchLoop_final_current (env : RedditEnv) (ks : List String) (i : Nat)
    (st : SearchProgress) (acc : List ResultRecord) :
    (searchLoop env ks i st acc).1.current =
      if ks.length = 0 then st.current else i + ks.length - 1 := by
  induction ks generalizing i st acc with
  | nil => simp [searchLoop]
  | cons k ks ih =>
    simp only [searchLoop, ih, List.length_cons]
    split <;> simp_all

/- ------------------------------------------------------------------
Shape of a configured run.
------------------------------------------------------------------ -/

/-- A configured run finishes with the accumulated records published. -/
theorem searchReddit_final_results (env : RedditEnv) (ks : List String)
    (sid : String) (st : SearchProgress) :
    (searchReddit (some env) ks sid st).1.results =
      some (ks.flatMap (keywordRecords env)) := by
  show some ((searchLoop env ks 1 (initState ks sid st) []).2.1) = _
  rw [searchLoop_acc]
  simp

/-- A configured run returns the accumulated records. -/
theorem searchReddit_return_value (env : RedditEnv) (ks : List String)
    (sid : String) (st : SearchProgress) :
    (searchReddit (some env) ks sid st).2 =
      some (ks.flatMap (keywordRecords env)) := by
  show some ((searchLoop env ks 1 (initState ks sid st) []).2.1) = _
  rw [searchLoop_acc]
  simp

/-- A configured run finishes with the running flag cleared. -/
theorem searchReddit_final_running (env : RedditEnv) (ks : List String)
    (sid : String) (st : SearchProgress) :
    (searchReddit (some env) ks sid st).1.is_running = false := rfl

/-- A configured run never sets the error field. -/
theorem searchReddit_final_error (env : RedditEnv) (ks : List String)
    (sid : String) (st : SearchProgress) :
    (searchReddit (some env) ks sid st).1.error = none :=
  (searchLoop_frame env ks 1 (initState ks sid st) []).1.2.1

/-- A configured run finishes with `total` = the batch length. -/
theorem searchReddit_final_total (env : RedditEnv) (ks : List String)
    (sid : String) (st : SearchProgress) :
    (searchReddit (some env) ks sid st).1.total = ks.length :=
  (searchLoop_frame env ks 1 (initState ks sid st) []).1.1

/-- A configured run finishes with `search_id` = the given id. -/
theorem searchReddit_final_sid (env : RedditEnv) (ks : List String)
    (sid : String) (st : SearchProgress) :
    (searchReddit (some env) ks sid st).1.search_id = some sid :=
  (searchLoop_frame env ks 1 (initState ks sid st) []).1.2.2.1

/-- A configured run finishes with `current` = the batch length. -/
theorem searchReddit_final_curr (env : RedditEnv) (ks : List String)
    (sid : String) (st : SearchProgress) :
    (searchReddit (some env) ks sid st).1.current = ks.length := by
  show (searchLoop env ks 1 (initState ks sid st) []).1.current = ks.length
  rw [searchLoop_final_current]
  split
  · simp_all [initState]
  · omega

/-- The `current` values published over a configured run, in order:
`0` from initialization, the 1-based keyword indices, and the final
snapshot repeating the last index. -/
theorem searchReddit_trace_current (env : RedditEnv) (ks : List String)
    (sid : String) (st : SearchProgress) :
    (searchRedditTrace (some env) ks sid st).map SearchProgress.current =
      0 :: (List.range' 1 ks.length ++ [ks.length]) := by
  simp only [searchRedditTrace, searchRedditFull, List.map_cons, List.map_append]
  rw [searchLoop_trace_current]
  have h1 : (initState ks sid st).current = 0 := rfl
  have h2 : (searchLoop env ks 1 (initState ks sid st) []).1.current = ks.length :=
    searchReddit_final_curr env ks sid st
  simp [h1, h2]

/-- Every snapshot a configured run publishes carries the batch length
in `total`. -/
theorem searchReddit_trace_total (env : RedditEnv) (ks : List String)
    (sid : String) (st : SearchProgress) :
    ∀ s ∈ searchRedditTrace (some env) ks sid st, s.total = ks.length := by
  intro s hs
  simp only [searchRedditTrace, searchRedditFull, List.mem_cons, List.mem_append,
    List.mem_singleton] at hs
  rcases hs with rfl | hs | rfl | h
  · rfl
  · exact ((searchLoop_frame env ks 1 (initState ks sid st) []).2 s hs).1
  · exact (searchLoop_frame env ks 1 (initState ks sid st) []).1.1
  · cases h

/- ------------------------------------------------------------------
Claims.
------------------------------------------------------------------ -/

/-- Claim C1: when the client raises for one keyword of a batch run
with a configured client, that keyword contributes no records, the
error field stays unset, the job completes (running cleared), and the
final results are exactly the per-keyword records of the whole batch
in order — so the failing keyword is simply missing from them. -/
theorem c1_keyword_failure_skipped (env : RedditEnv) (ks : List String)
    (sid : String) (st : SearchProgress) (kw e : String)
    (hmem : kw ∈ ks) (hraise : env.client kw = .error e) :
    keywordRecords env kw = [] ∧
    (searchReddit (some env) ks sid st).1.error = none ∧
    (searchReddit (some env) ks sid st).1.is_running = false ∧
    (searchReddit (some env) ks sid st).1.results =
      some (ks.flatMap (keywordRecords env)) := by
  refine ⟨?_, searchReddit_final_error env ks sid st,
    searchReddit_final_running env ks sid st,
    searchReddit_final_results env ks sid st⟩
  simp [keywordRecords, hraise]

/-- Witness for C1: three keywords, the middle one raises; the run
completes with exactly the first and third keywords' records. -/
theorem c1_witness :
    (keywordRecords envA "boom" = [] ∧
     (searchReddit (some envA) ["foo", "boom", "baz"] "20240102_120000" initialProgress).1.error = none ∧
     (searchReddit (some envA) ["foo", "boom", "baz"] "20240102_120000" initialProgress).1.is_running = false ∧
     (searchReddit (some envA) ["foo", "boom", "baz"] "20240102_120000" initialProgress).1.results =
       some ((["foo", "boom", "baz"]).flatMap (keywordRecords envA))) ∧
    (["foo", "boom", "baz"]).flatMap (keywordRecords envA) =
      keywordRecords envA "foo" ++ keywordRecords envA "baz" :=
  ⟨c1_keyword_failure_skipped envA ["foo", "boom", "baz"] "20240102_120000"
      initialProgress "boom" "boom" (by decide) rfl,
   by decide⟩

/-- Claim C3 (amended) / batch failure: when the client is
unconfigured — the only batch-level error reachable outside the
per-keyword try, since every client interaction sits inside it — the
error field is set to the configuration message, running is cleared,
nothing is searched (the call returns `none`), and `results` is left
unchanged: it remains absent whenever it was absent before the call,
but a prior job's results are retained, not cleared. -/
theorem c3_batch_error (ks : List String) (sid : String) (st : SearchProgress) :
    (searchReddit none ks sid st).1.error = some configError ∧
    (searchReddit none ks sid st).1.is_running = false ∧
    (searchReddit none ks sid st).1.results = st.results ∧
    (searchReddit none ks sid st).2 = none :=
  ⟨rfl, rfl, rfl, rfl⟩

/-- Counterexample to C3 as stated: starting a job with the client
unconfigured while a prior job's results are still in the global state
is a batch-level error run after which `results` is not absent. -/
theorem c3_counterexample :
    (searchReddit none ["x"] "20240102_000000" priorState).1.error = some configError ∧
    (searchReddit none ["x"] "20240102_000000" priorState).1.results ≠ none :=
  ⟨rfl, fun h => Option.noConfusion h⟩

/-- Claim C5: a configured run always completes with the accumulated
record list (possibly empty) published and running cleared; on the
concrete batch ["foo", "bar"] where the client returns three posts for
"foo" and none for "bar", the final state has three records all tagged
"foo", total = 2, current = 2, running = false. -/
theorem c5_normal_completion (env : RedditEnv) (ks : List String)
    (sid : String) (st : SearchProgress) :
    (searchReddit (some env) ks sid st).1.results =
      some (ks.flatMap (keywordRecords env)) ∧
    (searchReddit (some env) ks sid st).1.is_running = false ∧
    ((searchReddit (some envA) ["foo", "bar"] "20240101_000000" initialProgress).1.results.getD []).length = 3 ∧
    (((searchReddit (some envA) ["foo", "bar"] "20240101_000000" initialProgress).1.results.getD []).all
        fun r => r.keyword == "foo") = true ∧
    (searchReddit (some envA) ["foo", "bar"] "20240101_000000" initialProgress).1.total = 2 ∧
    (searchReddit (some envA) ["foo", "bar"] "20240101_000000" initialProgress).1.current = 2 ∧
    (searchReddit (some envA) ["foo", "bar"] "20240101_000000" initialProgress).1.is_running = false := by
  refine ⟨searchReddit_final_results env ks sid st,
    searchReddit_final_running env ks sid st, ?_, ?_, ?_, ?_, ?_⟩ <;> decide

/-- Claim C6: with a configured client, the first snapshot a run
publishes — before any keyword is processed — is the prior state with
total = batch length, current = 0, running = true, error and results
absent, and the given job id (the status message is not reset). -/
theorem c6_initialization (env : RedditEnv) (ks : List String) (sid : String)
    (st : SearchProgress) :
    (searchRedditTrace (some env) ks sid st).head? =
      some { st with
              total := ks.length, current := 0, is_running := true,
              error := none, search_id := some sid, results := none } := rfl

/-- Claim C7: keywords are processed in input order — the final result
list is the concatenation, over the batch in order, of each keyword's
records — a keyword whose client call succeeds contributes the first
at-most-five posts of the client's stream in the client's order, and
no keyword ever contributes more than five records. -/
theorem c7_ordering_and_cap (env : RedditEnv) (ks : List String) (sid : String)
    (st : SearchProgress) (k : String) (posts : List Post)
    (hok : env.client k = .ok posts) :
    (searchReddit (some env) ks sid st).1.results =
      some (ks.flatMap (keywordRecords env)) ∧
    keywordRecords env k = (posts.take 5).map (mkRecord env k) ∧
    ∀ kw : String, (keywordRecords env kw).length ≤ 5 := by
  refine ⟨searchReddit_final_results env ks sid st, by simp [keywordRecords, hok], ?_⟩
  intro kw
  unfold keywordRecords
  cases h : env.client kw with
  | ok posts2 =>
    simp only [List.length_map, List.length_take]
    exact Nat.min_le_left _ _
  | error e => simp

/-- Witness for C7 at a concrete configured client. -/
theorem c7_witness :
    (searchReddit (some envA) ["foo", "bar"] "20240103_000000" initialProgress).1.results =
      some ((["foo", "bar"]).flatMap (keywordRecords envA)) ∧
    keywordRecords envA "foo" =
      (([postFoo1, postFoo2, postFoo3]).take 5).map (mkRecord envA "foo") ∧
    ∀ kw : String, (keywordRecords envA kw).length ≤ 5 :=
  c7_ordering_and_cap envA ["foo", "bar"] "20240103_000000" initialProgress "foo"
    [postFoo1, postFoo2, postFoo3] rfl

/-- Claim C10: starting a job while the client is unconfigured only
writes `error` and `is_running`; `current`, `total`, `message`,
`results` and `search_id` all keep their prior values, so a progress
poll still reports the previous job's identifier, counters and
results. -/
theorem c10_unconfigured_frame (ks : List String) (sid : String)
    (st : SearchProgress) :
    (searchReddit none ks sid st).1.current = st.current ∧
    (searchReddit none ks sid st).1.total = st.total ∧
    (searchReddit none ks sid st).1.message = st.message ∧
    (searchReddit none ks sid st).1.results = st.results ∧
    (searchReddit none ks sid st).1.search_id = st.search_id ∧
    (searchReddit none ks sid st).1.error = some configError ∧
    (searchReddit none ks sid st).1.is_running = false :=
  ⟨rfl, rfl, rfl, rfl, rfl, rfl, rfl⟩

/-- Claim C2: over a configured run on a non-empty batch, `total` is
the batch length in every published snapshot, and `current` takes
exactly the values 0, 1, ..., total in order (the final snapshot
repeats total): it never decreases and never exceeds total. -/
theorem c2_progress_monotone (env : RedditEnv) (ks : List String) (sid : String)
    (st : SearchProgress) (hne : ks ≠ []) :
    (searchRedditTrace (some env) ks sid st).map SearchProgress.current =
      List.range (ks.length + 1) ++ [ks.length] ∧
    List.Chain' (fun a b => a ≤ b)
      ((searchRedditTrace (some env) ks sid st).map SearchProgress.current) ∧
    ∀ s ∈ searchRedditTrace (some env) ks sid st,
      s.total = ks.length ∧ s.current ≤ s.total := by
  have hmap : (searchRedditTrace (some env) ks sid st).map SearchProgress.current =
      List.range (ks.length + 1) ++ [ks.length] := by
    rw [searchReddit_trace_current, List.range_eq_range', List.range'_succ]
    simp
  refine ⟨hmap, ?_, ?_⟩
  · rw [hmap, List.chain'_append]
    refine ⟨(List.chain'_range_succ _ _).mpr (fun m _ => Nat.le_succ m), by simp, ?_⟩
    intro x hx y hy
    rw [List.range_eq_range', List.getLast?_range'] at hx
    simp at hx hy
    omega
  · intro s hs
    refine ⟨searchReddit_trace_total env ks sid st s hs, ?_⟩
    have hc : s.current ∈ (searchRedditTrace (some env) ks sid st).map SearchProgress.current :=
      List.mem_map_of_mem _ hs
    rw [hmap] at hc
    rw [searchReddit_trace_total env ks sid st s hs]
    rcases List.mem_append.mp hc with h | h
    · exact Nat.lt_succ_iff.mp (List.mem_range.mp h)
    · simp at h
      omega

/-- Witness for C2 at a concrete two-keyword batch. -/
theorem c2_witness :
    (searchRedditTrace (some envA) ["foo", "bar"] "20240104_000000" initialProgress).map SearchProgress.current =
      List.range ((["foo", "bar"] : List String).length + 1) ++ [(["foo", "bar"] : List String).length] ∧
    List.Chain' (fun a b => a ≤ b)
      ((searchRedditTrace (some envA) ["foo", "bar"] "20240104_000000" initialProgress).map SearchProgress.current) ∧
    ∀ s ∈ searchRedditTrace (some envA) ["foo", "bar"] "20240104_000000" initialProgress,
      s.total = (["foo", "bar"] : List String).length ∧ s.current ≤ s.total :=
  c2_progress_monotone envA ["foo", "bar"] "20240104_000000" initialProgress (by decide)

/-- Claim C8: `/reset` replaces the global state with the empty
JobState — current 0, total 0, empty message, not running, results,
error and job id absent — regardless of prior state, and redirects to
the landing page. -/
theorem c8_reset_clears (st : SearchProgress) :
    reset st =
      ({ current := 0, total := 0, message := "", is_running := false,
         results := none, error := none, search_id := none }, "/") := rfl

/- ------------------------------------------------------------------
Upload validation and keyword extraction.
------------------------------------------------------------------ -/

/-- Any upload call either starts no job or answers success. -/
theorem upload_started_success (files : Option UploadedFile) (now : String) :
    (upload_file files now).2 = none ∨ (upload_file files now).1 = .success now := by
  cases files with
  | none => exact .inl rfl
  | some f =>
    simp only [upload_file]
    repeat' split
    all_goals first | exact .inl rfl | exact .inr rfl

/-- When an upload with parseable content starts a job, the batch it
hands over is exactly the extracted keyword list. -/
theorem upload_started_batch (f : UploadedFile) (df : DataFrame) (now : String)
    (kws : List String) (sid : String)
    (hc : f.content = .ok df)
    (h : (upload_file (some f) now).2 = some (kws, sid)) :
    kws = extractKeywords df := by
  simp only [upload_file, hc] at h
  repeat' split at h
  all_goals try exact Option.noConfusion h
  simp only [Option.some.injEq, Prod.mk.injEq] at h
  exact h.1.symm

/-- Removing the blanks from a column keeps the remaining cells as a
subsequence (ordering preserved). -/
theorem filterMap_id_map_some_sublist (l : List (Option String)) :
    ((l.filterMap id).map some).Sublist l := by
  induction l with
  | nil => simp
  | cons o t ih =>
    cases o with
    | none => exact List.Sublist.cons none ih
    | some s => exact List.Sublist.cons₂ (some s) ih

/-- Removing the blanks from a column keeps every value's multiplicity
(duplicates preserved, nothing non-blank dropped). -/
theorem filterMap_id_count (l : List (Option String)) (s : String) :
    (l.filterMap id).count s = l.count (some s) := by
  induction l with
  | nil => rfl
  | cons o t ih =>
    cases o with
    | none =>
      show (List.filterMap id t).count s = List.count (some s) (none :: t)
      rw [List.count_cons, ih]
      simp
    | some v =>
      show (v :: List.filterMap id t).count s = List.count (some s) (some v :: t)
      rw [List.count_cons, List.count_cons, ih]
      simp

/-- Claim C4: the upload checks run in source order — file present,
filename non-empty, extension allowed, size at most 5 MB, file parses,
`Keyword` column present, extracted list non-empty, at most 20
keywords — the first failing check answers its JSON error message, and
no failing upload ever starts a job (the route body never writes the
global state; on failure it does not spawn the worker either). -/
theorem c4_validation_order (f : UploadedFile) (now : String) :
    (upload_file none now = (.failure "No file selected", none)) ∧
    (f.filename = "" →
      upload_file (some f) now = (.failure "No file selected", none)) ∧
    (f.filename ≠ "" →
      ¬ (endswith f.filename ".xlsx" ∨ endswith f.filename ".xls") →
      upload_file (some f) now = (.failure "Please upload an Excel file (.xlsx or .xls)", none)) ∧
    (f.filename ≠ "" →
      (endswith f.filename ".xlsx" ∨ endswith f.filename ".xls") →
      f.size > 5 * 1024 * 1024 →
      upload_file (some f) now = (.failure "File size too large. Maximum 5MB allowed.", none)) ∧
    (∀ e : String, f.filename ≠ "" →
      (endswith f.filename ".xlsx" ∨ endswith f.filename ".xls") →
      ¬ f.size > 5 * 1024 * 1024 →
      f.content = .error e →
      upload_file (some f) now = (.failure ("Error reading file: " ++ e), none)) ∧
    (∀ df : DataFrame, f.filename ≠ "" →
      (endswith f.filename ".xlsx" ∨ endswith f.filename ".xls") →
      ¬ f.size > 5 * 1024 * 1024 →
      f.content = .ok df →
      "Keyword" ∉ df.columns →
      upload_file (some f) now = (.failure "Excel file must have a \x27Keyword\x27 column", none)) ∧
    (∀ df : DataFrame, f.filename ≠ "" →
      (endswith f.filename ".xlsx" ∨ endswith f.filename ".xls") →
      ¬ f.size > 5 * 1024 * 1024 →
      f.content = .ok df →
      "Keyword" ∈ df.columns →
      extractKeywords df = [] →
      upload_file (some f) now = (.failure "No keywords found in the Excel file", none)) ∧
    (∀ df : DataFrame, f.filename ≠ "" →
      (endswith f.filename ".xlsx" ∨ endswith f.filename ".xls") →
      ¬ f.size > 5 * 1024 * 1024 →
      f.content = .ok df →
      "Keyword" ∈ df.columns →
      extractKeywords df ≠ [] →
      (extractKeywords df).length > 20 →
      upload_file (some f) now = (.failure "Too many keywords. Maximum 20 keywords allowed for Vercel deployment.", none)) ∧
    (∀ (files : Option UploadedFile) (r : String),
      (upload_file files now).1 = .failure r → (upload_file files now).2 = none) := by
  refine ⟨rfl, ?_, ?_, ?_, ?_, ?_, ?_, ?_, ?_⟩
  · intro h1
    simp [upload_file, h1]
  · intro h1 h2
    simp [upload_file, h1, h2]
  · intro h1 h2 h3
    simp [upload_file, h1, h2, h3]
  · intro e h1 h2 h3 h4
    simp [upload_file, h1, h2, h3, h4]
  · intro df h1 h2 h3 h4 h5
    simp [upload_file, h1, h2, h3, h4, h5]
  · intro df h1 h2 h3 h4 h5 h6
    simp [upload_file, h1, h2, h3, h4, h5, h6]
  · intro df h1 h2 h3 h4 h5 h6 h7
    simp [upload_file, h1, h2, h3, h4, h5, h6, h7]
  · intro files r h
    rcases upload_started_success files now with h2 | h2
    · exact h2
    · rw [h] at h2
      exact UploadResponse.noConfusion h2

/-- Witness for C4: a missing file and a .txt upload are both refused
with the source's messages and start no job. -/
theorem c4_witness :
    upload_file (some ⟨"a.txt", 0, .error "x"⟩) "20240105_000000" =
      (.failure "Please upload an Excel file (.xlsx or .xls)", none) ∧
    upload_file none "20240105_000000" = (.failure "No file selected", none) :=
  ⟨(c4_validation_order ⟨"a.txt", 0, .error "x"⟩ "20240105_000000").2.2.1
      (by decide) (by decide),
   (c4_validation_order ⟨"a.txt", 0, .error "x"⟩ "20240105_000000").1⟩

/-- A Keyword column holding an explicit empty-string cell and a
non-empty one. -/
def dfEmptyCell : DataFrame :=
  { cols := [("Keyword", [some "", some "a"])] }

/-- An upload of `dfEmptyCell` that passes every validation check. -/
def fileEmptyCell : UploadedFile :=
  { filename := "kw.xlsx", size := 10, content := .ok dfEmptyCell }

/-- Counterexample to C9 as stated: this upload validates successfully,
yet the batch handed to the job runner contains the empty string —
`dropna` removes blank (NaN) cells but does not filter empty-string
values, so keywords are not guaranteed to be non-empty strings. -/
theorem c9_counterexample :
    upload_file (some fileEmptyCell) "20240106_000000" =
      (.success "20240106_000000", some (["", "a"], "20240106_000000")) ∧
    ("" : String) ∈ (["", "a"] : List String) ∧ ("" : String).length = 0 :=
  ⟨by decide, by decide, rfl⟩

/-- Claim C9 (amended): for every successfully validated upload, the
batch handed to the job runner is the source file's Keyword column
with exactly the blank (NaN) cells removed: a subsequence of the
column preserving ordering and every value's multiplicity.  The values
are passed through unchecked, so they are cell values but not
guaranteed non-empty. -/
theorem c9_keyword_extraction (f : UploadedFile) (df : DataFrame) (now : String)
    (kws : List String) (sid : String)
    (hc : f.content = .ok df)
    (hstart : (upload_file (some f) now).2 = some (kws, sid)) :
    kws = (df.getCol "Keyword").filterMap id ∧
    (kws.map some).Sublist (df.getCol "Keyword") ∧
    ∀ s : String, kws.count s = (df.getCol "Keyword").count (some s) := by
  have hk : kws = extractKeywords df := upload_started_batch f df now kws sid hc hstart
  subst hk
  exact ⟨rfl, filterMap_id_map_some_sublist _, fun s => filterMap_id_count _ s⟩

/-- A Keyword column with a blank cell and a duplicated value. -/
def dfSample : DataFrame :=
  { cols := [("Keyword", [some "a", none, some "b", some "a"])] }

/-- An upload of `dfSample` that passes every validation check. -/
def fileSample : UploadedFile :=
  { filename := "kw.xlsx", size := 10, content := .ok dfSample }

/-- Witness for C9 at a concrete upload with a blank cell and a
duplicate keyword. -/
theorem c9_witness :
    (["a", "b", "a"] : List String) = (dfSample.getCol "Keyword").filterMap id ∧
    ((["a", "b", "a"] : List String).map some).Sublist (dfSample.getCol "Keyword") ∧
    ∀ s : String,
      (["a", "b", "a"] : List String).count s = (dfSample.getCol "Keyword").count (some s) :=
  c9_keyword_extraction fileSample dfSample "20240107_000000" ["a", "b", "a"]
    "20240107_000000" rfl (by decide)
